import Mathlib

/-!
Shallow embedding of `CausalModule.py` (MOCP pipeline).

The pipeline is a stateful class whose methods dispatch to external
statistical backends (causal-learn, dowhy, networkx).  We embed the
pipeline state as a structure, Python exceptions as an `Except` error
type, and the external backends as explicit function parameters, so every
theorem quantifies over backend behaviour where the source defers to a
library call.  Methods that mutate state before a possible exception
return the post-mutation state alongside the `Except` result, mirroring
Python's in-place field assignment.
-/

deriving instance DecidableEq for Except

namespace MOCP

/-- A directed edge between two named nodes, as in a networkx `DiGraph`. -/
abbrev Edge := String × String

/-- Shallow model of a networkx `DiGraph`: a finite set of node names and a
finite set of directed edges. -/
structure NxDiGraph where
  nodes : Finset String
  edges : Finset Edge
deriving DecidableEq

/-- networkx `DiGraph.add_edges_from`: inserts the edges, adding both
endpoints to the node set. -/
def add_edges_from (g : NxDiGraph) (es : List Edge) : NxDiGraph :=
  { nodes := g.nodes ∪ (es.map Prod.fst).toFinset ∪ (es.map Prod.snd).toFinset
    edges := g.edges ∪ es.toFinset }

/-- networkx `DiGraph.remove_edges_from`: removes the listed edges (edges
absent from the graph are silently ignored); nodes are untouched. -/
def remove_edges_from (g : NxDiGraph) (es : List Edge) : NxDiGraph :=
  { nodes := g.nodes
    edges := g.edges \ es.toFinset }

/-- Direct successors of a node. -/
def succs (g : NxDiGraph) (a : String) : Finset String :=
  (g.edges.filter (fun e => e.1 = a)).image Prod.snd

/-- `reachB g n a b` decides whether `b` is reachable from `a` along at most
`n` edges of `g`. -/
def reachB (g : NxDiGraph) : Nat → String → String → Bool
  | 0, a, b => a = b
  | n + 1, a, b => a = b || decide (∃ c ∈ succs g a, reachB g n c b = true)

/-- Decidable cycle test: some edge closes back to its own source.  A path
never needs more than `nodes.card` edges, so the bounded reachability is
exact on the graphs we evaluate. -/
def hasCycle (g : NxDiGraph) : Bool :=
  decide (∃ e ∈ g.edges, reachB g g.nodes.card e.2 e.1 = true)

/-- The caller-supplied tabular dataset; only the ordered column names are
observable to the pipeline logic under verification (`self.data.columns`).
`payload` stands for the numeric rows handed opaquely to the backends. -/
structure DataSet where
  columns : List String
  payload : Nat
deriving DecidableEq

/-- Opaque result object of `dowhy.gcm.falsify.falsify_graph`. -/
structure GraphRefutation where
  rid : Nat
deriving DecidableEq

/-- Opaque `dowhy.CausalModel` object. -/
structure ModelObj where
  mid : Nat
deriving DecidableEq

/-- Opaque identified-estimand object. -/
structure Estimand where
  eid : Nat
deriving DecidableEq

/-- Opaque effect-estimate object. -/
structure Estimate where
  value : Int
deriving DecidableEq

/-- One refutation-result object returned by `model.refute_estimate`. -/
structure EstRef where
  rid : Nat
  is_statistically_significant : Bool
deriving DecidableEq

/-- `self.est_ref` holds either a single refutation result or, for the
`"ALL"` selector, a Python list of them. -/
inductive EstRefValue
  | single (r : EstRef)
  | listOf (rs : List EstRef)
deriving DecidableEq

/-- Python exceptions observable from the pipeline code.  The source never
constructs the last four wrapper errors anywhere; they are present so the
spec's error taxonomy is expressible. -/
inductive PyErr
  /-- a bare `raise` with no active exception (RuntimeError). -/
  | runtimeErrorBareRaise
  /-- attribute access or method call on a `None` field. -/
  | attributeErrorNone
  /-- any exception raised inside an external library call. -/
  | backendFailure (code : Nat)
  | configurationError
  | preconditionError
  | refinementError
  | discoveryError
deriving DecidableEq

/-- The `pk` argument of `find_causal_graph`: either not a dict at all, or a
dict from string keys to edge lists. -/
inductive PKInput
  | notDict
  | dict (entries : List (String × List Edge))
deriving DecidableEq

/-- Pipeline state: the instance fields set in `CausalModule.__init__`. -/
structure CausalModule where
  data : DataSet
  discovery_algorithm : Option String
  treatment_variable : Option String
  outcome_variable : Option String
  treatment_value : Option Int
  control_value : Option Int
  graph : Option NxDiGraph
  graph_ref : Option GraphRefutation
  model : Option ModelObj
  estimand : Option Estimand
  estimate : Option Estimate
  est_ref : Option EstRefValue
deriving DecidableEq

/-- `__init__` with user inputs and all artifact fields `None`. -/
def initCM (data : DataSet) : CausalModule :=
  ⟨data, none, none, none, none, none, none, none, none, none, none, none⟩

/-- Lines 61-62: `if self.discovery_algorithm: algo = self.discovery_algorithm`.
Python truthiness: `None` and the empty string are falsy, so only a
non-empty constructor string overrides the per-call argument. -/
def effective_algo (constructor_algo : Option String) (algo : String) : String :=
  match constructor_algo with
  | some s => if s = "" then algo else s
  | none => algo

/-- The identifiers matched by the `match algo` dispatch (lines 70-91). -/
def supported_algos : List String := ["pc", "ges", "icalingam"]

/-- Lines 93-105, the prior-knowledge block: a non-dict `pk` hits a bare
`raise` (RuntimeError, no active exception); for a dict, the `required`
edges are added first, then the `forbidden` edges removed; keys other than
these two are silently ignored.  Accessing `self.graph` while it is `None`
is an AttributeError. -/
def apply_prior_knowledge (g : Option NxDiGraph) (pk : PKInput) :
    Except PyErr (Option NxDiGraph) :=
  match pk with
  | .notDict => .error .runtimeErrorBareRaise
  | .dict entries =>
    let afterReq : Except PyErr (Option NxDiGraph) :=
      match entries.lookup "required" with
      | some es =>
        match g with
        | none => .error .attributeErrorNone
        | some gr => .ok (some (add_edges_from gr es))
      | none => .ok g
    match afterReq with
    | .error e => .error e
    | .ok g1 =>
      match entries.lookup "forbidden" with
      | some es =>
        match g1 with
        | none => .error .attributeErrorNone
        | some gr => .ok (some (remove_edges_from gr es))
      | none => .ok g1

/-- `find_causal_graph` (lines 59-111).  The three discovery pipelines
(pc/ges/icalingam, each normalised to a directed graph before storage) are
external library calls, abstracted as `backend`; an unmatched algorithm
string leaves `self.graph` untouched.  The surrounding `try/except` logs
and re-raises the same exception, so errors propagate unchanged. -/
def find_causal_graph
    (backend : String → DataSet → Except PyErr NxDiGraph)
    (cm : CausalModule) (algo : String) (pk : Option PKInput) :
    Except PyErr CausalModule :=
  let a := effective_algo cm.discovery_algorithm algo
  let afterDispatch : Except PyErr CausalModule :=
    if a ∈ supported_algos then
      match backend a cm.data with
      | .error e => .error e
      | .ok g => .ok { cm with graph := some g }
    else .ok cm
  match afterDispatch with
  | .error e => .error e
  | .ok cm1 =>
    match pk with
    | none => .ok cm1
    | some pkv =>
      match apply_prior_knowledge cm1.graph pkv with
      | .error e => .error e
      | .ok g2 => .ok { cm1 with graph := g2 }

/-- `refute_cgm` (lines 117-135).  `falsify_graph` and `apply_suggestions`
are dowhy backend calls.  `self.graph_ref` is assigned before suggestions
are applied, so it survives a later failure; the `except` block re-raises
the same exception.  Returns the mutated state together with the result
(`self.graph`) or the propagated exception. -/
def refute_cgm
    (falsify : Option NxDiGraph → DataSet → Nat → Except PyErr GraphRefutation)
    (applySug : Option NxDiGraph → GraphRefutation → Except PyErr NxDiGraph)
    (cm : CausalModule) (n_perm : Nat) (apply_sugst : Bool) :
    CausalModule × Except PyErr (Option NxDiGraph) :=
  match falsify cm.graph cm.data n_perm with
  | .error e => (cm, .error e)
  | .ok result =>
    let cm1 := { cm with graph_ref := some result }
    if apply_sugst then
      match applySug cm1.graph result with
      | .error e => (cm1, .error e)
      | .ok g =>
        let cm2 := { cm1 with graph := some g }
        (cm2, .ok cm2.graph)
    else (cm1, .ok cm1.graph)

/-- `create_model` (lines 137-148): constructs the dowhy `CausalModel` from
the stored data/treatment/outcome/graph with no validation of its own and
stores it; any exception comes from the backend constructor. -/
def create_model
    (causalModelCtor :
      DataSet → Option String → Option String → Option NxDiGraph →
        Except PyErr ModelObj)
    (cm : CausalModule) : CausalModule × Except PyErr (Option ModelObj) :=
  match causalModelCtor cm.data cm.treatment_variable cm.outcome_variable
      cm.graph with
  | .error e => (cm, .error e)
  | .ok m =>
    let cm1 := { cm with model := some m }
    (cm1, .ok cm1.model)

/-- `estimate_effect` (lines 176-202).  Defaults `ctrl_val`/`trtm_val` from
the constructor-level values when `None`; the `match method_cat` has a
single case `'backdoor.linear_regression'` and no wildcard, so any other
identifier leaves the local `estimate = None`, which is then stored and
returned.  Calling `self.model.estimate_effect` with `self.model = None`
is an AttributeError; backend exceptions are re-raised unchanged. -/
def estimate_effect
    (backendEstimate :
      ModelObj → Option Estimand → Option Int → Option Int →
        Except PyErr Estimate)
    (cm : CausalModule) (method_cat : String)
    (ctrl_val trtm_val : Option Int) :
    CausalModule × Except PyErr (Option Estimate) :=
  let ctrl := match ctrl_val with
    | none => cm.control_value
    | some v => some v
  let trtm := match trtm_val with
    | none => cm.treatment_value
    | some v => some v
  if method_cat = "backdoor.linear_regression" then
    match cm.model with
    | none => (cm, .error .attributeErrorNone)
    | some m =>
      match backendEstimate m cm.estimand ctrl trtm with
      | .error e => (cm, .error e)
      | .ok est =>
        let cm1 := { cm with estimate := some est }
        (cm1, .ok cm1.estimate)
  else
    let cm1 := { cm with estimate := none }
    (cm1, .ok none)

/-- The three shapes of `model.refute_estimate` call made by the inner
helper closures of `refute_estimate`, distinguished by `method_name` and
the extra parameter each one passes. -/
inductive RefCall
  | placebo (placebo_type : String)
  | randomCommonCause
  | dataSubset (subset_fraction : Rat)
deriving DecidableEq

/-- `refute_estimate` (lines 206-259).  Each helper closure calls
`self.model.refute_estimate(self.estimand, self.estimate, ...)`; with
`self.model = None` that is an AttributeError.  The `"ALL"` case performs
the three calls in order placebo, random-common-cause, data-subset and
stores the list.  An unmatched `method_name` leaves `ref = None`, and the
significance post-check then dereferences `None` (AttributeError). -/
def refute_estimate
    (refuter :
      ModelObj → Option Estimand → Option Estimate → RefCall →
        Except PyErr EstRef)
    (cm : CausalModule) (method_name : String) (placebo_type : String)
    (subset_fraction : Rat) :
    CausalModule × Except PyErr (Option EstRefValue) :=
  let call : RefCall → Except PyErr EstRef := fun rc =>
    match cm.model with
    | none => .error .attributeErrorNone
    | some m => refuter m cm.estimand cm.estimate rc
  match method_name with
  | "placebo_treatment_refuter" =>
    match call (.placebo placebo_type) with
    | .error e => (cm, .error e)
    | .ok r =>
      let cm1 := { cm with est_ref := some (.single r) }
      (cm1, .ok cm1.est_ref)
  | "random_common_cause" =>
    match call .randomCommonCause with
    | .error e => (cm, .error e)
    | .ok r =>
      let cm1 := { cm with est_ref := some (.single r) }
      (cm1, .ok cm1.est_ref)
  | "data_subset_refuter" =>
    match call (.dataSubset subset_fraction) with
    | .error e => (cm, .error e)
    | .ok r =>
      let cm1 := { cm with est_ref := some (.single r) }
      (cm1, .ok cm1.est_ref)
  | "ALL" =>
    match call (.placebo placebo_type) with
    | .error e => (cm, .error e)
    | .ok r1 =>
      match call .randomCommonCause with
      | .error e => (cm, .error e)
      | .ok r2 =>
        match call (.dataSubset subset_fraction) with
        | .error e => (cm, .error e)
        | .ok r3 =>
          let cm1 := { cm with est_ref := some (.listOf [r1, r2, r3]) }
          (cm1, .ok cm1.est_ref)
  | _ => (cm, .error .attributeErrorNone)

/-- `get_all_information` (lines 261-267): a pure read of the five artifact
fields. -/
def get_all_information (cm : CausalModule) :
    Option NxDiGraph × Option GraphRefutation × Option Estimand ×
      Option Estimate × Option EstRefValue :=
  (cm.graph, cm.graph_ref, cm.estimand, cm.estimate, cm.est_ref)

/-! Concrete fixtures used by counterexamples and witnesses. -/

/-- A two-column dataset. -/
def dsAB : DataSet := ⟨["A", "B"], 0⟩

/-- An edgeless DAG over the columns of `dsAB` (a possible discovery
output for two independent columns). -/
def dagAB : NxDiGraph := ⟨{"A", "B"}, ∅⟩

/-- Fresh pipeline state over `dsAB`. -/
def cm0 : CausalModule := initCM dsAB

/-- A concrete backend model object. -/
def mObj : ModelObj := ⟨0⟩

/-- Pipeline state holding a model but no estimand. -/
def cmModelOnly : CausalModule := { cm0 with model := some mObj }

/-- C1 counterexample: starting from an acyclic discovery result whose nodes
are exactly the dataset's columns, `find_causal_graph` with prior knowledge
requiring the edges A→B and B→A succeeds and stores a cyclic graph — the
required-edge insertion is unchecked, so the no-cycle invariant fails. -/
theorem find_causal_graph_required_cycle_cex :
    hasCycle dagAB = false ∧ dagAB.nodes = dsAB.columns.toFinset ∧
    (find_causal_graph (fun _ _ => .ok dagAB) cm0 "pc"
        (some (.dict [("required", [("A", "B"), ("B", "A")])]))).map
      (fun cm => cm.graph.map hasCycle) = .ok (some true) := by
  decide

/-- C1 (amended): for every supported discovery algorithm, whenever the
discovery backend returns (as the spec asserts it does) a graph whose nodes
are exactly the dataset's columns and which has no directed cycle,
`find_causal_graph` without prior knowledge stores and returns exactly that
graph, so the node-set and acyclicity invariants hold; with required edges
from prior knowledge the invariant can fail (see the counterexample). -/
theorem find_causal_graph_no_pk_nodes_acyclic
    (backend : String → DataSet → Except PyErr NxDiGraph)
    (cm : CausalModule) (algo : String) (g : NxDiGraph)
    (halgo : effective_algo cm.discovery_algorithm algo ∈ supported_algos)
    (hbk : backend (effective_algo cm.discovery_algorithm algo) cm.data = .ok g)
    (hnodes : g.nodes = cm.data.columns.toFinset)
    (hdag : hasCycle g = false) :
    find_causal_graph backend cm algo none = .ok { cm with graph := some g } ∧
      g.nodes = cm.data.columns.toFinset ∧ hasCycle g = false := by
  refine ⟨?_, hnodes, hdag⟩
  simp [find_causal_graph, halgo, hbk]

/-- C1 witness: the amended theorem applied at the pc algorithm, the
two-column dataset and the edgeless DAG over its columns. -/
theorem find_causal_graph_no_pk_nodes_acyclic_witness :
    find_causal_graph (fun _ _ => .ok dagAB) cm0 "pc" none =
        .ok { cm0 with graph := some dagAB } ∧
      dagAB.nodes = cm0.data.columns.toFinset ∧ hasCycle dagAB = false :=
  find_causal_graph_no_pk_nodes_acyclic (fun _ _ => .ok dagAB) cm0 "pc" dagAB
    (by decide) rfl (by decide) (by decide)

/-- C2: applying prior knowledge whose `required` and `forbidden` lists both
contain the edge (A,B) produces the graph obtained by adding the required
edges first and removing the forbidden ones second, and that graph does not
contain the edge A→B: forbidden wins over required. -/
theorem apply_pk_forbidden_wins
    (g : NxDiGraph) (req forb : List Edge) (a b : String)
    (_hreq : (a, b) ∈ req) (hforb : (a, b) ∈ forb) :
    apply_prior_knowledge (some g)
        (.dict [("required", req), ("forbidden", forb)]) =
      .ok (some (remove_edges_from (add_edges_from g req) forb)) ∧
    (a, b) ∉ (remove_edges_from (add_edges_from g req) forb).edges := by
  constructor
  · simp [apply_prior_knowledge, List.lookup]
  · simp only [remove_edges_from, Finset.mem_sdiff, List.mem_toFinset]
    intro h
    exact h.2 hforb

/-- C2 witness: forbidden wins at a concrete graph with edge (A,B) in both
lists. -/
theorem apply_pk_forbidden_wins_witness :
    apply_prior_knowledge (some dagAB)
        (.dict [("required", [("A", "B")]), ("forbidden", [("A", "B")])]) =
      .ok (some (remove_edges_from (add_edges_from dagAB [("A", "B")])
        [("A", "B")])) ∧
    ("A", "B") ∉ (remove_edges_from (add_edges_from dagAB [("A", "B")])
      [("A", "B")]).edges :=
  apply_pk_forbidden_wins dagAB [("A", "B")] [("A", "B")] "A" "B"
    (by decide) (by decide)

/-- C3 counterexample: a prior-knowledge dict whose only key is `"other"` —
not restricted to `required`/`forbidden` — is accepted without any error:
`find_causal_graph` succeeds and simply ignores the unrecognized key, so no
`ConfigurationError` is raised for this malformed input. -/
theorem find_causal_graph_unknown_pk_key_cex :
    find_causal_graph (fun _ _ => .ok dagAB) cm0 "pc"
        (some (.dict [("other", [("A", "B")])])) =
      .ok { cm0 with graph := some dagAB } := by
  decide

/-- C3 (amended): when `pk` is not a dict, `find_causal_graph` fails with
the bare-raise RuntimeError (not a `ConfigurationError`); when `pk` is a
dict, its keys are not validated — a dict with neither `required` nor
`forbidden` is accepted and its keys silently ignored. -/
theorem find_causal_graph_pk_validation
    (backend : String → DataSet → Except PyErr NxDiGraph)
    (cm : CausalModule) (algo : String) (g : NxDiGraph)
    (entries : List (String × List Edge))
    (halgo : effective_algo cm.discovery_algorithm algo ∈ supported_algos)
    (hbk : backend (effective_algo cm.discovery_algorithm algo) cm.data = .ok g)
    (hreq : entries.lookup "required" = none)
    (hforb : entries.lookup "forbidden" = none) :
    find_causal_graph backend cm algo (some .notDict) =
        .error .runtimeErrorBareRaise ∧
    find_causal_graph backend cm algo (some (.dict entries)) =
        .ok { cm with graph := some g } := by
  constructor
  · simp [find_causal_graph, apply_prior_knowledge, halgo, hbk]
  · simp [find_causal_graph, apply_prior_knowledge, halgo, hbk, hreq, hforb]

/-- C3 witness: the amended theorem at the pc algorithm and a dict holding
only the unrecognized key `"other"`. -/
theorem find_causal_graph_pk_validation_witness :
    find_causal_graph (fun _ _ => .ok dagAB) cm0 "pc" (some .notDict) =
        .error .runtimeErrorBareRaise ∧
    find_causal_graph (fun _ _ => .ok dagAB) cm0 "pc"
        (some (.dict [("other", [("A", "B")])])) =
      .ok { cm0 with graph := some dagAB } :=
  find_causal_graph_pk_validation (fun _ _ => .ok dagAB) cm0 "pc" dagAB
    [("other", [("A", "B")])] (by decide) rfl (by decide) (by decide)

/-- C4 counterexample: when the falsification backend fails, `refute_cgm`
propagates the backend's own exception unchanged — the error raised is not
`RefinementError` (no wrapping happens). -/
theorem refute_cgm_error_not_refinement_cex :
    refute_cgm (fun _ _ _ => .error (.backendFailure 7))
        (fun _ _ => .error (.backendFailure 8)) cm0 100 true =
      (cm0, .error (.backendFailure 7)) ∧
    PyErr.backendFailure 7 ≠ PyErr.refinementError := by
  decide

/-- C4 (amended): if `refute_cgm` fails, the active graph field is exactly
its pre-call value, and the exception is the one raised by the backend —
either by the falsification call or by the suggestion-application call —
re-raised unchanged rather than wrapped into a `RefinementError`. -/
theorem refute_cgm_error_propagation
    (falsify : Option NxDiGraph → DataSet → Nat → Except PyErr GraphRefutation)
    (applySug : Option NxDiGraph → GraphRefutation → Except PyErr NxDiGraph)
    (cm : CausalModule) (n_perm : Nat) (apply_sugst : Bool) (e : PyErr)
    (h : (refute_cgm falsify applySug cm n_perm apply_sugst).2 = .error e) :
    (refute_cgm falsify applySug cm n_perm apply_sugst).1.graph = cm.graph ∧
    (falsify cm.graph cm.data n_perm = .error e ∨
      ∃ r, falsify cm.graph cm.data n_perm = .ok r ∧
        applySug cm.graph r = .error e) := by
  cases hf : falsify cm.graph cm.data n_perm with
  | error e1 =>
    simp [refute_cgm, hf] at h ⊢
    exact h
  | ok r =>
    cases apply_sugst with
    | false => simp [refute_cgm, hf] at h
    | true =>
      cases ha : applySug cm.graph r with
      | error e2 =>
        simp [refute_cgm, hf, ha] at h ⊢
        exact h
      | ok g => simp [refute_cgm, hf, ha] at h

/-- C4 witness: the error-propagation theorem at a concretely failing
falsification backend. -/
theorem refute_cgm_error_propagation_witness :
    (refute_cgm (fun _ _ _ => .error (.backendFailure 3))
        (fun _ _ => .error (.backendFailure 4)) cm0 5 true).1.graph =
      cm0.graph ∧
    ((fun (_ : Option NxDiGraph) (_ : DataSet) (_ : Nat) =>
        (.error (.backendFailure 3) : Except PyErr GraphRefutation))
        cm0.graph cm0.data 5 = .error (.backendFailure 3) ∨
      ∃ r, (fun (_ : Option NxDiGraph) (_ : DataSet) (_ : Nat) =>
          (.error (.backendFailure 3) : Except PyErr GraphRefutation))
          cm0.graph cm0.data 5 = .ok r ∧
        (fun (_ : Option NxDiGraph) (_ : GraphRefutation) =>
          (.error (.backendFailure 4) : Except PyErr NxDiGraph))
          cm0.graph r = .error (.backendFailure 3)) :=
  refute_cgm_error_propagation (fun _ _ _ => .error (.backendFailure 3))
    (fun _ _ => .error (.backendFailure 4)) cm0 5 true (.backendFailure 3) rfl

/-- C5 counterexample: with a model present but `estimand = None`,
`estimate_effect` raises no `PreconditionError` (nor any error): it passes
the `None` estimand straight to the backend and, with a succeeding backend,
stores and returns the estimate. -/
theorem estimate_effect_no_estimand_cex :
    cmModelOnly.estimand = none ∧
    estimate_effect (fun _ _ _ _ => .ok ⟨42⟩) cmModelOnly
        "backdoor.linear_regression" none none =
      ({ cmModelOnly with estimate := some ⟨42⟩ }, .ok (some ⟨42⟩)) := by
  decide

/-- C5 (amended): `estimate_effect` performs no estimand precondition
check: when the pipeline holds no Estimand (estimand field `None`) but a
model is present, the call proceeds, handing the `None` estimand to the
backend and returning whatever it produces — no `PreconditionError` is
raised. -/
theorem estimate_effect_no_precondition_check
    (backendEstimate :
      ModelObj → Option Estimand → Option Int → Option Int →
        Except PyErr Estimate)
    (cm : CausalModule) (m : ModelObj) (est : Estimate)
    (hm : cm.model = some m) (hest : cm.estimand = none)
    (hbe : backendEstimate m none cm.control_value cm.treatment_value =
      .ok est) :
    estimate_effect backendEstimate cm "backdoor.linear_regression"
        none none =
      ({ cm with estimate := some est }, .ok (some est)) := by
  simp [estimate_effect, hm, hest, hbe]

/-- C5 witness: the no-precondition-check theorem at a concrete state with
a model, no estimand, and a succeeding backend. -/
theorem estimate_effect_no_precondition_check_witness :
    estimate_effect (fun _ _ _ _ => .ok ⟨42⟩) cmModelOnly
        "backdoor.linear_regression" none none =
      ({ cmModelOnly with estimate := some ⟨42⟩ }, .ok (some ⟨42⟩)) :=
  estimate_effect_no_precondition_check (fun _ _ _ _ => .ok ⟨42⟩) cmModelOnly
    mObj ⟨42⟩ rfl rfl rfl

/-- C6: with a model present and each refuter call succeeding,
`refute_estimate` with `method_name = "ALL"` stores and returns the
three-element list [placebo result, random-common-cause result, data-subset
result] in that fixed order, each element produced by its own backend call
with the corresponding method selector. -/
theorem refute_estimate_all_ordered_triple
    (refuter :
      ModelObj → Option Estimand → Option Estimate → RefCall →
        Except PyErr EstRef)
    (cm : CausalModule) (m : ModelObj) (placebo_type : String)
    (subset_fraction : Rat) (r1 r2 r3 : EstRef)
    (hm : cm.model = some m)
    (h1 : refuter m cm.estimand cm.estimate (.placebo placebo_type) = .ok r1)
    (h2 : refuter m cm.estimand cm.estimate .randomCommonCause = .ok r2)
    (h3 : refuter m cm.estimand cm.estimate (.dataSubset subset_fraction) =
      .ok r3) :
    refute_estimate refuter cm "ALL" placebo_type subset_fraction =
      ({ cm with est_ref := some (.listOf [r1, r2, r3]) },
        .ok (some (.listOf [r1, r2, r3]))) := by
  simp [refute_estimate, hm, h1, h2, h3]

/-- C6 witness: the ALL selector at a concrete refuter that tags each of
the three calls differently, showing the fixed order of the results. -/
theorem refute_estimate_all_ordered_triple_witness :
    refute_estimate
        (fun _ _ _ rc =>
          .ok ⟨match rc with
                | .placebo _ => 1
                | .randomCommonCause => 2
                | .dataSubset _ => 3, false⟩)
        cmModelOnly "ALL" "permute" (9 / 10) =
      ({ cmModelOnly with
          est_ref := some (.listOf [⟨1, false⟩, ⟨2, false⟩, ⟨3, false⟩]) },
        .ok (some (.listOf [⟨1, false⟩, ⟨2, false⟩, ⟨3, false⟩]))) :=
  refute_estimate_all_ordered_triple
    (fun _ _ _ rc =>
      .ok ⟨match rc with
            | .placebo _ => 1
            | .randomCommonCause => 2
            | .dataSubset _ => 3, false⟩)
    cmModelOnly mObj "permute" (9 / 10) ⟨1, false⟩ ⟨2, false⟩ ⟨3, false⟩
    rfl rfl rfl rfl

/-- C7: when the falsification backend succeeds, `refute_cgm` with
`apply_sugst = false` leaves the active graph field identical to its
pre-call value while storing the non-null refutation record, and returns
the unchanged graph. -/
theorem refute_cgm_no_apply_preserves_graph
    (falsify : Option NxDiGraph → DataSet → Nat → Except PyErr GraphRefutation)
    (applySug : Option NxDiGraph → GraphRefutation → Except PyErr NxDiGraph)
    (cm : CausalModule) (n_perm : Nat) (r : GraphRefutation)
    (hf : falsify cm.graph cm.data n_perm = .ok r) :
    (refute_cgm falsify applySug cm n_perm false).1.graph = cm.graph ∧
    (refute_cgm falsify applySug cm n_perm false).1.graph_ref = some r ∧
    (refute_cgm falsify applySug cm n_perm false).2 = .ok cm.graph := by
  simp [refute_cgm, hf]

/-- C7 witness: the frame property at a concrete succeeding falsification
backend. -/
theorem refute_cgm_no_apply_preserves_graph_witness :
    (refute_cgm (fun _ _ _ => .ok ⟨11⟩)
        (fun _ _ => .error (.backendFailure 4)) cm0 100 false).1.graph =
      cm0.graph ∧
    (refute_cgm (fun _ _ _ => .ok ⟨11⟩)
        (fun _ _ => .error (.backendFailure 4)) cm0 100 false).1.graph_ref =
      some ⟨11⟩ ∧
    (refute_cgm (fun _ _ _ => .ok ⟨11⟩)
        (fun _ _ => .error (.backendFailure 4)) cm0 100 false).2 =
      .ok cm0.graph :=
  refute_cgm_no_apply_preserves_graph (fun _ _ _ => .ok ⟨11⟩)
    (fun _ _ => .error (.backendFailure 4)) cm0 100 ⟨11⟩ rfl

/-- C8 counterexample: with the treatment variable `"T"` not among the
dataset's columns, `create_model` raises no `ConfigurationError` — it
performs no validation of its own and succeeds whenever the backend
constructor does. -/
theorem create_model_no_validation_cex :
    "T" ∉ ({ cm0 with treatment_variable := some "T" } : CausalModule).data.columns ∧
    create_model (fun _ _ _ _ => .ok mObj)
        { cm0 with treatment_variable := some "T" } =
      ({ cm0 with treatment_variable := some "T", model := some mObj },
        .ok (some mObj)) := by
  decide

/-- C8 (amended): `create_model` validates nothing: any exception it raises
is exactly the one raised by the backend `CausalModel` constructor on the
stored data/treatment/outcome/graph — never a `ConfigurationError` of the
pipeline's own making. -/
theorem create_model_error_is_backend
    (causalModelCtor :
      DataSet → Option String → Option String → Option NxDiGraph →
        Except PyErr ModelObj)
    (cm : CausalModule) (e : PyErr)
    (h : (create_model causalModelCtor cm).2 = .error e) :
    causalModelCtor cm.data cm.treatment_variable cm.outcome_variable
        cm.graph = .error e := by
  cases hc : causalModelCtor cm.data cm.treatment_variable
      cm.outcome_variable cm.graph with
  | error e1 =>
    simp [create_model, hc] at h
    exact h ▸ rfl
  | ok m => simp [create_model, hc] at h

/-- C8 witness: the pass-through theorem at a concretely failing backend
constructor. -/
theorem create_model_error_is_backend_witness :
    (fun (_ : DataSet) (_ : Option String) (_ : Option String)
        (_ : Option NxDiGraph) =>
        (.error (.backendFailure 9) : Except PyErr ModelObj))
      cm0.data cm0.treatment_variable cm0.outcome_variable cm0.graph =
      .error (.backendFailure 9) :=
  create_model_error_is_backend
    (fun _ _ _ _ => .error (.backendFailure 9)) cm0 (.backendFailure 9) rfl

/-- C9 counterexample: a constructor-level `discovery_algorithm` equal to
the empty string is not `None`, yet — because the source tests Python
truthiness, not `is not None` — the per-call `algo` argument is *not*
ignored: calling with `algo = "pc"` and with `algo = ""` (the constructor
value) give different results. -/
theorem find_causal_graph_empty_algo_cex :
    ({ cm0 with discovery_algorithm := some "" } : CausalModule).discovery_algorithm ≠ none ∧
    find_causal_graph (fun _ _ => .ok dagAB)
        { cm0 with discovery_algorithm := some "" } "pc" none ≠
      find_causal_graph (fun _ _ => .ok dagAB)
        { cm0 with discovery_algorithm := some "" } "" none := by
  decide

/-- C9 (amended): whenever the constructor-level `discovery_algorithm` is a
truthy value — a non-empty string — the per-call `algo` argument is
silently ignored: `find_causal_graph` behaves exactly as if called with the
constructor value, for every backend, state, and prior knowledge. -/
theorem find_causal_graph_constructor_algo_overrides
    (backend : String → DataSet → Except PyErr NxDiGraph)
    (cm : CausalModule) (algo s : String) (pk : Option PKInput)
    (hda : cm.discovery_algorithm = some s) (hs : s ≠ "") :
    find_causal_graph backend cm algo pk = find_causal_graph backend cm s pk := by
  simp [find_causal_graph, effective_algo, hda, hs]

/-- C9 witness: the override theorem at constructor algorithm `"ges"` and
per-call argument `"pc"`. -/
theorem find_causal_graph_constructor_algo_overrides_witness :
    find_causal_graph (fun _ _ => .ok dagAB)
        { cm0 with discovery_algorithm := some "ges" } "pc" none =
      find_causal_graph (fun _ _ => .ok dagAB)
        { cm0 with discovery_algorithm := some "ges" } "ges" none :=
  find_causal_graph_constructor_algo_overrides (fun _ _ => .ok dagAB)
    { cm0 with discovery_algorithm := some "ges" } "pc" "ges" none rfl
    (by decide)

/-- C10: for any `method_cat` other than `'backdoor.linear_regression'`,
`estimate_effect` raises no exception: it sets the pipeline's estimate
field to `None` — overwriting whatever estimate was previously stored — and
returns `None`. -/
theorem estimate_effect_unknown_method_none
    (backendEstimate :
      ModelObj → Option Estimand → Option Int → Option Int →
        Except PyErr Estimate)
    (cm : CausalModule) (method_cat : String) (ctrl_val trtm_val : Option Int)
    (h : method_cat ≠ "backdoor.linear_regression") :
    estimate_effect backendEstimate cm method_cat ctrl_val trtm_val =
      ({ cm with estimate := none }, .ok none) := by
  simp [estimate_effect, h]

/-- C10 witness: an unknown method on a state that already holds an
estimate — the stored estimate is overwritten with `None` and `None` is
returned, with no error. -/
theorem estimate_effect_unknown_method_none_witness :
    estimate_effect (fun _ _ _ _ => .ok ⟨42⟩)
        { cmModelOnly with estimate := some ⟨5⟩ } "backdoor.xyz" none none =
      ({ cmModelOnly with estimate := none }, .ok none) :=
  estimate_effect_unknown_method_none (fun _ _ _ _ => .ok ⟨42⟩)
    { cmModelOnly with estimate := some ⟨5⟩ } "backdoor.xyz" none none
    (by decide)

end MOCP
